import Mathlib

/-!
Verification of the passwordentropy.com scoring pipeline.

The definitions below are a shallow embedding of the TypeScript module that
implements the scoring pipeline (entropy estimation, breach penalty,
crack-time model, formatting and classification).  JavaScript numbers are
modelled as real numbers, JavaScript strings as Lean strings, and the
`number | undefined` result of the zxcvbn-based entropy estimate as
`Option ℝ`.  The external zxcvbn pattern estimator and the SHA-1 digest are
modelled as function parameters, since the module consumes them as black
boxes.  The breach-lookup transport (an HTTP fetch) is modelled by an
explicit outcome value: either a thrown error (network failure or abort) or
a response carrying an `ok` flag and a body string.  A JavaScript `NaN`
arising from `parseInt` on a malformed count field is modelled as `none` in
an `Option ℤ` result.
-/

namespace PasswordEntropy

/-- Hash rates per GPU in hashes per second, from the `hashRates` record
(RTX 5090 hashcat benchmarks).  A key absent from the record yields
`undefined` in JavaScript, modelled as `none`. -/
noncomputable def hashRates : String → Option ℝ
  | "none" => some 1e12
  | "md5" => some 220.6e9
  | "sha1" => some 70.2e9
  | "sha512" => some 10e9
  | "pbkdf2" => some 36e3
  | "bcrypt" => some 9.5e3
  | "scrypt" => some 7.76e3
  | "argon2id" => some 2.2e3
  | _ => none

/-- Embedding of `calculateEntropy`: for the empty password the source
returns `undefined`; otherwise it converts the zxcvbn `guessesLog10`
estimate to bits via `guessesLog10 * Math.log2(10)`.  The zxcvbn estimator
is an external collaborator, passed here as the function `guessesLog10`. -/
noncomputable def calculateEntropy (guessesLog10 : String → ℝ) (password : String) :
    Option ℝ :=
  if password.length = 0 then none
  else some (guessesLog10 password * Real.logb 2 10)

/-- Embedding of `calculateCrackTime`: zero entropy yields 0; otherwise
`(2 ^ entropy / 2) / (hashRate * gpuCount)` where the hash rate is looked
up in `hashRates`, falling back to the `sha512` entry when the key is
unknown (JavaScript `hashRates[hashKey] || hashRates.sha512`; every stored
rate is a nonzero number, so `||` fires exactly on a missing key). -/
noncomputable def calculateCrackTime (entropy : ℝ) (hashKey : String) (gpuCount : ℝ) : ℝ :=
  if entropy = 0 then 0
  else
    let hashRate := (hashRates hashKey).getD ((hashRates "sha512").getD 0)
    let totalHashesPerSecond := hashRate * gpuCount
    let totalCombinations := (2 : ℝ) ^ entropy
    let averageAttempts := totalCombinations / 2
    averageAttempts / totalHashesPerSecond

/-- Result record of `calculatePenalizedEntropy` (interface
`PenalizedEntropyResult` in the source). -/
structure PenalizedEntropyResult where
  entropy : ℝ
  isPenalized : Bool

/-- Embedding of `calculatePenalizedEntropy`: Zipf-law breach penalty.
For a breach count of zero the original entropy is returned unpenalized;
otherwise the rank of the password in an attacker's frequency-ordered list
is estimated as `max(1, (C / min(breachCount, C)) ^ (1 / s))` with
`C = 1_000_000` and `s = 0.78`, the penalty entropy is `log2(rank)`, and
the final entropy is `min(originalEntropy, penalizedEntropy, 25.0)`. -/
noncomputable def calculatePenalizedEntropy (originalEntropy : ℝ) (breachCount : ℕ) :
    PenalizedEntropyResult :=
  if breachCount = 0 then
    { entropy := originalEntropy, isPenalized := false }
  else
    let C : ℝ := 1000000
    let s : ℝ := 0.78
    let frequency : ℝ := min (breachCount : ℝ) C
    let rank : ℝ := max 1 ((C / frequency) ^ ((1 : ℝ) / s))
    let penalizedEntropy : ℝ := Real.logb 2 rank
    let breachedEntropyCap : ℝ := 25.0
    let finalEntropy : ℝ := min originalEntropy (min penalizedEntropy breachedEntropyCap)
    { entropy := finalEntropy, isPenalized := decide (0 < breachCount) }

/-- The Zipf rank estimate used inside `calculatePenalizedEntropy`,
extracted as a named function so theorems can speak about it. -/
noncomputable def zipfRank (breachCount : ℕ) : ℝ :=
  max 1 ((1000000 / min (breachCount : ℝ) 1000000) ^ ((1 : ℝ) / 0.78))

/-- Unfolding lemma: the zero-breach branch of `calculatePenalizedEntropy`. -/
theorem calculatePenalizedEntropy_zero (e : ℝ) :
    calculatePenalizedEntropy e 0 = { entropy := e, isPenalized := false } := by
  simp [calculatePenalizedEntropy]

/-- Unfolding lemma: the positive-breach branch of
`calculatePenalizedEntropy`, phrased with `zipfRank`. -/
theorem calculatePenalizedEntropy_pos (e : ℝ) (n : ℕ) (hn : n ≠ 0) :
    calculatePenalizedEntropy e n =
      { entropy := min e (min (Real.logb 2 (zipfRank n)) 25),
        isPenalized := decide (0 < n) } := by
  rw [calculatePenalizedEntropy, if_neg hn]
  norm_num [zipfRank]

/-- The Zipf rank estimate is always at least one. -/
theorem one_le_zipfRank (n : ℕ) : 1 ≤ zipfRank n := le_max_left _ _

/-- The Zipf penalty entropy `log2(rank)` is nonnegative. -/
theorem zipf_logb_nonneg (n : ℕ) : 0 ≤ Real.logb 2 (zipfRank n) :=
  Real.logb_nonneg one_lt_two (one_le_zipfRank n)

/-- C1: `calculatePenalizedEntropy` satisfies its full postcondition: a
zero breach count returns the original entropy unpenalized, and a positive
breach count returns `min(e, log2(max(1, (C / min(n, C))^(1/s))), 25.0)`
with `C = 1_000_000` and `s = 0.78`, flagged as penalized. -/
theorem claim1_calculatePenalizedEntropy_postcondition (e : ℝ) (n : ℕ) :
    (n = 0 → calculatePenalizedEntropy e n = { entropy := e, isPenalized := false }) ∧
    (0 < n → calculatePenalizedEntropy e n =
      { entropy := min e (min
          (Real.logb 2 (max 1 ((1000000 / min (n : ℝ) 1000000) ^ ((1 : ℝ) / 0.78))))
          25),
        isPenalized := true }) := by
  constructor
  · intro h
    subst h
    exact calculatePenalizedEntropy_zero e
  · intro h
    rw [calculatePenalizedEntropy_pos e n h.ne']
    simp [zipfRank, h]

/-- Witness for C1 at a concrete input. -/
theorem claim1_witness :
    calculatePenalizedEntropy 30 0 = { entropy := 30, isPenalized := false } :=
  (claim1_calculatePenalizedEntropy_postcondition 30 0).1 rfl

/-- C2: for nonnegative original entropy and a positive breach count, the
penalized entropy is at most the original entropy, at most 25 bits, and
remains nonnegative. -/
theorem claim2_penalized_entropy_bounds (e : ℝ) (n : ℕ) (he : 0 ≤ e) (hn : 0 < n) :
    (calculatePenalizedEntropy e n).entropy ≤ e ∧
    (calculatePenalizedEntropy e n).entropy ≤ 25 ∧
    0 ≤ (calculatePenalizedEntropy e n).entropy := by
  rw [calculatePenalizedEntropy_pos e n hn.ne']
  refine ⟨min_le_left _ _, le_trans (min_le_right _ _) (min_le_right _ _), ?_⟩
  exact le_min he (le_min (zipf_logb_nonneg n) (by norm_num))

/-- Witness for C2 at a concrete input. -/
theorem claim2_witness :
    (0 : ℝ) ≤ 30 ∧ 0 < 1 ∧
    ((calculatePenalizedEntropy 30 1).entropy ≤ 30 ∧
     (calculatePenalizedEntropy 30 1).entropy ≤ 25 ∧
     0 ≤ (calculatePenalizedEntropy 30 1).entropy) :=
  ⟨by norm_num, by norm_num, claim2_penalized_entropy_bounds 30 1 (by norm_num) (by norm_num)⟩

/-- C10: the `isPenalized` flag reports breach presence: it is `true` for
every positive breach count, even when the final entropy equals the
original entropy (as at `originalEntropy = 0`, where the minimum returns
the original value unchanged). -/
theorem claim10_isPenalized_reports_breach_presence (e : ℝ) (n : ℕ) (hn : 0 < n) :
    (calculatePenalizedEntropy e n).isPenalized = true ∧
    (calculatePenalizedEntropy 0 n).entropy = 0 := by
  rw [calculatePenalizedEntropy_pos e n hn.ne', calculatePenalizedEntropy_pos 0 n hn.ne']
  refine ⟨by simp [hn], ?_⟩
  have h1 : 0 ≤ min (Real.logb 2 (zipfRank n)) 25 :=
    le_min (zipf_logb_nonneg n) (by norm_num)
  simp [min_eq_left h1]

/-- Witness for C10 at a concrete input. -/
theorem claim10_witness :
    0 < 1 ∧ ((calculatePenalizedEntropy 7 1).isPenalized = true ∧
      (calculatePenalizedEntropy 0 1).entropy = 0) :=
  ⟨by norm_num, claim10_isPenalized_reports_breach_presence 7 1 (by norm_num)⟩

/-- Embedding of `formatCrackTime`: maps a duration in seconds to a display
string through hard unit cutoffs.  `Math.round` is modelled by `round` and
`toFixed(0)` by rounding to an integer (both inputs are nonnegative in
every reachable branch, where the two JavaScript rounding modes agree). -/
noncomputable def formatCrackTime (seconds : ℝ) : String :=
  if seconds < 60 then "Instant"
  else
    let minutes := seconds / 60
    if minutes < 60 then toString (round minutes) ++ " min"
    else
      let hours := minutes / 60
      if hours < 24 then toString (round hours) ++ " hrs"
      else
        let days := hours / 24
        if days < 30 then toString (round days) ++ " days"
        else
          let months := days / 30
          if months < 12 then toString (round months) ++ " mo"
          else
            let years := days / 365.25
            if years < 1000 then toString (round years) ++ " yrs"
            else if years < 1e6 then toString (round (years / 1000)) ++ "k yrs"
            else if years < 1e9 then toString (round (years / 1e6)) ++ "M yrs"
            else if years < 1e12 then toString (round (years / 1e9)) ++ "B yrs"
            else if years < 1e15 then toString (round (years / 1e12)) ++ "T yrs"
            else "∞"

/-- Embedding of `getCrackTimeTier`: five ordered severity tiers over fixed
second thresholds (under a day, under a year, under about a thousand years,
under about a billion years, else the top tier). -/
noncomputable def getCrackTimeTier (seconds : ℝ) : String :=
  if seconds < 60 * 60 * 24 then "tier-1"
  else if seconds < 31557600 then "tier-2"
  else if seconds < 3.1557e11 then "tier-3"
  else if seconds < 3.1557e16 then "tier-4"
  else "tier-5"

/-- Embedding of `getStrengthLabel`: an `undefined` entropy yields the
neutral label `-`; otherwise fixed bit thresholds select an ordered label. -/
noncomputable def getStrengthLabel (entropy : Option ℝ) : String :=
  match entropy with
  | none => "-"
  | some e =>
    if e < 28 then "Very Weak"
    else if e < 36 then "Weak"
    else if e < 60 then "Moderate"
    else if e < 80 then "Strong"
    else if e < 100 then "Very Strong"
    else "Excellent"

/-- Embedding of `getStrengthTier`: an `undefined` entropy yields the
empty tier class; otherwise fixed bit thresholds select a tier class (the
source repeats `tier-2` and `tier-5` across adjacent bands). -/
noncomputable def getStrengthTier (entropy : Option ℝ) : String :=
  match entropy with
  | none => ""
  | some e =>
    if e < 28 then "tier-2"
    else if e < 36 then "tier-2"
    else if e < 60 then "tier-3"
    else if e < 80 then "tier-5"
    else "tier-5"

/-- Numeric position of a crack-time or strength tier class on the ordered
tier scale. -/
def tierRank : String → ℕ
  | "tier-1" => 1
  | "tier-2" => 2
  | "tier-3" => 3
  | "tier-4" => 4
  | "tier-5" => 5
  | _ => 0

/-- Numeric position of a strength label on the ordered label scale. -/
def strengthLabelRank : String → ℕ
  | "Very Weak" => 1
  | "Weak" => 2
  | "Moderate" => 3
  | "Strong" => 4
  | "Very Strong" => 5
  | "Excellent" => 6
  | _ => 0

/-- C3: `calculateCrackTime` returns 0 at zero entropy and otherwise
returns `(2 ^ entropy / 2) / (rate * gpuCount)`; a key missing from the
`hashRates` table behaves exactly like the `sha512` default profile, so
the lookup never fails. -/
theorem claim3_calculateCrackTime_postcondition (e : ℝ) (key : String) (g : ℝ) :
    (e = 0 → calculateCrackTime e key g = 0) ∧
    (e ≠ 0 → calculateCrackTime e key g =
      ((2 : ℝ) ^ e / 2) / ((hashRates key).getD ((hashRates "sha512").getD 0) * g)) ∧
    (hashRates key = none → calculateCrackTime e key g = calculateCrackTime e "sha512" g) := by
  refine ⟨fun h => by simp [calculateCrackTime, h], fun h => by simp [calculateCrackTime, h],
    fun h => ?_⟩
  by_cases he : e = 0
  · simp [calculateCrackTime, he]
  · have hs : hashRates "sha512" = some 10e9 := rfl
    simp [calculateCrackTime, he, h, hs]

/-- Witness for C3 at concrete inputs, including an unknown key. -/
theorem claim3_witness :
    calculateCrackTime 0 "md5" 1 = 0 ∧
    calculateCrackTime 10 "blake3" 1 = calculateCrackTime 10 "sha512" 1 :=
  ⟨(claim3_calculateCrackTime_postcondition 0 "md5" 1).1 rfl,
   (claim3_calculateCrackTime_postcondition 10 "blake3" 1).2.2 rfl⟩

/-- C4: for the empty password `calculateEntropy` returns the explicit
`undefined` result, never any numeric value (in particular never zero), so
no input is distinguishable from a zero-strength input. -/
theorem claim4_empty_password_undefined (guessesLog10 : String → ℝ) :
    calculateEntropy guessesLog10 "" = none ∧
    ∀ x : ℝ, calculateEntropy guessesLog10 "" ≠ some x := by
  refine ⟨rfl, fun x h => ?_⟩
  simp [calculateEntropy] at h

/-- Witness for C4 at a concrete estimator. -/
theorem claim4_witness : calculateEntropy (fun _ => 0) "" = none :=
  (claim4_empty_password_undefined fun _ => 0).1

/-- Branch characterization of `getCrackTimeTier` as a numeric rank. -/
theorem tierRank_getCrackTimeTier (s : ℝ) :
    tierRank (getCrackTimeTier s) =
      if s < 60 * 60 * 24 then 1
      else if s < 31557600 then 2
      else if s < 3.1557e11 then 3
      else if s < 3.1557e16 then 4
      else 5 := by
  unfold getCrackTimeTier
  split_ifs <;> rfl

/-- C7: `getCrackTimeTier` is monotonically non-decreasing in seconds:
more crack time never yields a weaker (lower) tier. -/
theorem claim7_getCrackTimeTier_monotone (s₁ s₂ : ℝ) (h : s₁ ≤ s₂) :
    tierRank (getCrackTimeTier s₁) ≤ tierRank (getCrackTimeTier s₂) := by
  rw [tierRank_getCrackTimeTier, tierRank_getCrackTimeTier]
  split_ifs <;> first | omega | (exfalso; linarith)

/-- Witness for C7 at concrete inputs. -/
theorem claim7_witness :
    (100 : ℝ) ≤ 1e20 ∧ tierRank (getCrackTimeTier 100) ≤ tierRank (getCrackTimeTier 1e20) :=
  ⟨by norm_num, claim7_getCrackTimeTier_monotone 100 1e20 (by norm_num)⟩

/-- Branch characterization of `getStrengthLabel` on defined entropy as a
numeric rank. -/
theorem strengthLabelRank_getStrengthLabel (e : ℝ) :
    strengthLabelRank (getStrengthLabel (some e)) =
      if e < 28 then 1
      else if e < 36 then 2
      else if e < 60 then 3
      else if e < 80 then 4
      else if e < 100 then 5
      else 6 := by
  simp only [getStrengthLabel]
  split_ifs <;> rfl

/-- Branch characterization of `getStrengthTier` on defined entropy as a
numeric rank. -/
theorem tierRank_getStrengthTier (e : ℝ) :
    tierRank (getStrengthTier (some e)) =
      if e < 28 then 2
      else if e < 36 then 2
      else if e < 60 then 3
      else if e < 80 then 5
      else 5 := by
  simp only [getStrengthTier]
  split_ifs <;> rfl

/-- C6: the strength classifier is monotonically non-decreasing in entropy
on nonnegative reals (for the label and for the tier class), it is total on
that domain (every nonnegative entropy gets one of the six ordered labels),
and the `undefined` input gets a distinct result that no defined entropy,
in particular not zero entropy, ever receives. -/
theorem claim6_strength_classifier (e₁ e₂ : ℝ) (_h₁ : 0 ≤ e₁) (hle : e₁ ≤ e₂) :
    strengthLabelRank (getStrengthLabel (some e₁)) ≤
      strengthLabelRank (getStrengthLabel (some e₂)) ∧
    tierRank (getStrengthTier (some e₁)) ≤ tierRank (getStrengthTier (some e₂)) ∧
    getStrengthLabel none = "-" ∧
    getStrengthTier none = "" ∧
    (∀ e : ℝ, 0 ≤ e →
      getStrengthLabel (some e) ∈
        ["Very Weak", "Weak", "Moderate", "Strong", "Very Strong", "Excellent"]) ∧
    (∀ e : ℝ, 0 ≤ e → getStrengthLabel (some e) ≠ "-") ∧
    getStrengthLabel (some 0) ≠ "-" ∧ getStrengthTier (some 0) ≠ "" := by
  refine ⟨?_, ?_, rfl, rfl, ?_, ?_, ?_, ?_⟩
  · rw [strengthLabelRank_getStrengthLabel, strengthLabelRank_getStrengthLabel]
    split_ifs <;> first | omega | (exfalso; linarith)
  · rw [tierRank_getStrengthTier, tierRank_getStrengthTier]
    split_ifs <;> first | omega | (exfalso; linarith)
  · intro e _
    simp only [getStrengthLabel]
    split_ifs <;> decide
  · intro e _
    simp only [getStrengthLabel]
    split_ifs <;> decide
  · simp only [getStrengthLabel]
    rw [if_pos (show (0 : ℝ) < 28 by norm_num)]
    decide
  · simp only [getStrengthTier]
    rw [if_pos (show (0 : ℝ) < 28 by norm_num)]
    decide

/-- Witness for C6 at concrete inputs. -/
theorem claim6_witness :
    (0 : ℝ) ≤ 30 ∧ (30 : ℝ) ≤ 70 ∧
    (strengthLabelRank (getStrengthLabel (some 30)) ≤
       strengthLabelRank (getStrengthLabel (some 70)) ∧
     tierRank (getStrengthTier (some 30)) ≤ tierRank (getStrengthTier (some 70)) ∧
     getStrengthLabel none = "-" ∧
     getStrengthTier none = "" ∧
     (∀ e : ℝ, 0 ≤ e →
       getStrengthLabel (some e) ∈
         ["Very Weak", "Weak", "Moderate", "Strong", "Very Strong", "Excellent"]) ∧
     (∀ e : ℝ, 0 ≤ e → getStrengthLabel (some e) ≠ "-") ∧
     getStrengthLabel (some 0) ≠ "-" ∧ getStrengthTier (some 0) ≠ "") :=
  ⟨by norm_num, by norm_num, claim6_strength_classifier 30 70 (by norm_num) (by norm_num)⟩

/-- C8: `formatCrackTime` renders the instant label for every duration
below 60 seconds, and the infinity symbol for every duration of at least
10^15 years (one year being 31557600 seconds in the source's unit chain). -/
theorem claim8_formatCrackTime_extremes (s : ℝ) :
    (s < 60 → formatCrackTime s = "Instant") ∧
    ((3.15576e22 : ℝ) ≤ s → formatCrackTime s = "∞") := by
  constructor
  · intro h
    simp only [formatCrackTime]
    rw [if_pos h]
  · intro h
    have hd : ∀ a c : ℝ, 0 < c → a * c ≤ s → a ≤ s / c :=
      fun a c hc0 hac => (le_div_iff₀ hc0).mpr hac
    have c1 : ¬s < 60 := not_lt.mpr (by linarith)
    have c2 : ¬s / 60 < 60 := not_lt.mpr (hd 60 60 (by norm_num) (by linarith))
    have c3 : ¬s / 60 / 60 < 24 := not_lt.mpr (by
      rw [show s / 60 / 60 = s / 3600 by ring]
      exact hd 24 3600 (by norm_num) (by linarith))
    have c4 : ¬s / 60 / 60 / 24 < 30 := not_lt.mpr (by
      rw [show s / 60 / 60 / 24 = s / 86400 by ring]
      exact hd 30 86400 (by norm_num) (by linarith))
    have c5 : ¬s / 60 / 60 / 24 / 30 < 12 := not_lt.mpr (by
      rw [show s / 60 / 60 / 24 / 30 = s / 2592000 by ring]
      exact hd 12 2592000 (by norm_num) (by linarith))
    have hy : (1e15 : ℝ) ≤ s / 60 / 60 / 24 / 365.25 := by
      rw [show s / 60 / 60 / 24 / 365.25 = s / 31557600 by ring]
      exact hd 1e15 31557600 (by norm_num) (by linarith)
    have c6 : ¬s / 60 / 60 / 24 / 365.25 < 1000 := not_lt.mpr (by linarith)
    have c7 : ¬s / 60 / 60 / 24 / 365.25 < 1e6 := not_lt.mpr (by linarith)
    have c8 : ¬s / 60 / 60 / 24 / 365.25 < 1e9 := not_lt.mpr (by linarith)
    have c9 : ¬s / 60 / 60 / 24 / 365.25 < 1e12 := not_lt.mpr (by linarith)
    have c10 : ¬s / 60 / 60 / 24 / 365.25 < 1e15 := not_lt.mpr (by linarith)
    simp only [formatCrackTime]
    rw [if_neg c1, if_neg c2, if_neg c3, if_neg c4, if_neg c5, if_neg c6, if_neg c7,
      if_neg c8, if_neg c9, if_neg c10]

/-- Witness for C8 at concrete inputs on both extremes. -/
theorem claim8_witness :
    (59 : ℝ) < 60 ∧ formatCrackTime 59 = "Instant" ∧
    (3.15576e22 : ℝ) ≤ 1e23 ∧ formatCrackTime 1e23 = "∞" :=
  ⟨by norm_num, (claim8_formatCrackTime_extremes 59).1 (by norm_num),
   by norm_num, (claim8_formatCrackTime_extremes 1e23).2 (by norm_num)⟩

/-- Outcome of the breach-lookup fetch, as observed by `queryHIBPRange`:
either the fetch (or reading its body) threw — a network error or an abort
of the request — or a response arrived with its `ok` flag and body text. -/
inductive FetchOutcome where
  | failure : FetchOutcome
  | response : Bool → String → FetchOutcome

/-- Longest leading run of decimal digits of a character list. -/
def leadDigits (cs : List Char) : List Char := cs.takeWhile Char.isDigit

/-- Integer value of a list of decimal digit characters. -/
def digitsVal (cs : List Char) : ℤ :=
  cs.foldl (fun acc c => acc * 10 + ((c.toNat : ℤ) - 48)) 0

/-- JavaScript `parseInt(str, 10)`: skip leading whitespace, accept an
optional sign, read the longest run of leading decimal digits; `NaN`
(modelled as `none`) when no digit is found. -/
def parseInt10 (str : String) : Option ℤ :=
  match str.toList.dropWhile Char.isWhitespace with
  | '-' :: rest =>
    if leadDigits rest = [] then none else some (-(digitsVal (leadDigits rest)))
  | '+' :: rest =>
    if leadDigits rest = [] then none else some (digitsVal (leadDigits rest))
  | cs => if leadDigits cs = [] then none else some (digitsVal (leadDigits cs))

/-- JavaScript `line.split(':')` on a character list. -/
def splitOnColon : List Char → List (List Char)
  | [] => [[]]
  | c :: cs =>
    if c = ':' then [] :: splitOnColon cs
    else
      match splitOnColon cs with
      | [] => [[c]]
      | g :: gs => (c :: g) :: gs

/-- JavaScript `text.split('\r\n')` on a character list. -/
def splitLinesCRLF : List Char → List (List Char)
  | [] => [[]]
  | '\r' :: '\n' :: cs => [] :: splitLinesCRLF cs
  | c :: cs =>
    match splitLinesCRLF cs with
    | [] => [[c]]
    | g :: gs => (c :: g) :: gs

/-- The response-scanning loop of `queryHIBPRange`: for each line, split on
`:` and compare the first field with the queried hash suffix; on the first
match return `parseInt(count, 10)` — where a missing second field is
JavaScript `undefined`, and `parseInt(undefined, 10)` is `NaN` (`none`).
When no line matches, fall through to `return 0`. -/
def findSuffixCount (lines : List (List Char)) (sfx : List Char) : Option ℤ :=
  match lines with
  | [] => some 0
  | line :: rest =>
    let parts := splitOnColon line
    if parts.headD [] = sfx then
      match parts[1]? with
      | some c => parseInt10 ⟨c⟩
      | none => none
    else findSuffixCount rest sfx

/-- Embedding of `queryHIBPRange`: a thrown fetch (network error or abort)
is caught and yields 0; a non-`ok` response yields 0; otherwise the body is
split into CRLF lines and scanned for the suffix.  The returned JavaScript
number may be `NaN` (`none`) when `parseInt` receives a malformed count. -/
def queryHIBPRange (outcome : FetchOutcome) (sfx : String) : Option ℤ :=
  match outcome with
  | .failure => some 0
  | .response ok body =>
    if ok = false then some 0
    else findSuffixCount (splitLinesCRLF body.toList) sfx.toList

/-- Embedding of `checkHIBP`: an empty password short-circuits to 0;
otherwise the SHA-1 hex digest (an external collaborator, passed as
`sha1Hex`) is split after its first five characters and the suffix is
looked up in the range response.  The five-character prefix only feeds the
request URL, which the transport outcome already abstracts. -/
def checkHIBP (sha1Hex : String → String) (password : String) (outcome : FetchOutcome) :
    Option ℤ :=
  if password.length = 0 then some 0
  else
    let hashHex := sha1Hex password
    let sfx : String := ⟨hashHex.toList.drop 5⟩
    queryHIBPRange outcome sfx

/-- Scanning a response in which no line's first field equals the queried
suffix falls through to 0. -/
theorem findSuffixCount_of_no_match (lines : List (List Char)) (sfx : List Char)
    (h : ∀ line ∈ lines, (splitOnColon line).headD [] ≠ sfx) :
    findSuffixCount lines sfx = some 0 := by
  induction lines with
  | nil => rfl
  | cons line rest ih =>
    simp only [findSuffixCount]
    rw [if_neg (h line (by simp))]
    exact ih fun l hl => h l (by simp [hl])

/-- C5 counterexample: the claim `every malformed response line yields
breachCount = 0` is false.  With the password `password123` (SHA-1
`CBFDAC6008F9CAB4083784CBD1874F76618D2A97`, as documented in the README),
a successful response whose single line carries the matching suffix but an
empty count field makes `parseInt('', 10)` return `NaN`, not 0. -/
theorem claim5_counterexample :
    checkHIBP (fun _ => "CBFDAC6008F9CAB4083784CBD1874F76618D2A97") "password123"
      (FetchOutcome.response true "C6008F9CAB4083784CBD1874F76618D2A97:") ≠ some 0 := by
  decide

/-- C5 (amended): `checkHIBP` never raises (it is a total function into a
result value) and resolves with breach count 0 on a network error or
abort, on a non-success HTTP response, and on any response — malformed
lines included — in which no line's suffix field matches the queried hash
suffix; a matching line with a malformed count field instead yields `NaN`
(`none`), still without raising. -/
theorem claim5_fail_open_amended (sfx body pw : String) (sha1Hex : String → String) :
    queryHIBPRange FetchOutcome.failure sfx = some 0 ∧
    queryHIBPRange (FetchOutcome.response false body) sfx = some 0 ∧
    checkHIBP sha1Hex pw FetchOutcome.failure = some 0 ∧
    ((∀ line ∈ splitLinesCRLF body.toList, (splitOnColon line).headD [] ≠ sfx.toList) →
      queryHIBPRange (FetchOutcome.response true body) sfx = some 0) := by
  refine ⟨rfl, rfl, ?_, fun h => ?_⟩
  · by_cases hp : pw.length = 0 <;> simp [checkHIBP, hp, queryHIBPRange]
  · exact findSuffixCount_of_no_match _ _ h

/-- Witness for the amended C5 at concrete inputs. -/
theorem claim5_witness :
    (∀ line ∈ splitLinesCRLF ("XY:3" : String).toList,
        (splitOnColon line).headD [] ≠ ("ABC" : String).toList) ∧
    (queryHIBPRange FetchOutcome.failure "ABC" = some 0 ∧
     queryHIBPRange (FetchOutcome.response false "XY:3") "ABC" = some 0 ∧
     checkHIBP (fun _ => "0123456789ABCDEF0123456789ABCDEF01234567") "pw"
       FetchOutcome.failure = some 0 ∧
     ((∀ line ∈ splitLinesCRLF ("XY:3" : String).toList,
         (splitOnColon line).headD [] ≠ ("ABC" : String).toList) →
       queryHIBPRange (FetchOutcome.response true "XY:3") "ABC" = some 0)) :=
  ⟨by decide,
   claim5_fail_open_amended "ABC" "XY:3" "pw"
     (fun _ => "0123456789ABCDEF0123456789ABCDEF01234567")⟩

/-- The Zipf rank at breach count one, in closed form. -/
theorem zipfRank_one_eq : zipfRank 1 = (1000000 : ℝ) ^ ((50 : ℝ) / 39) := by
  have h1 : (1 : ℝ) ≤ (1000000 : ℝ) ^ ((50 : ℝ) / 39) :=
    Real.one_le_rpow (by norm_num) (by norm_num)
  unfold zipfRank
  norm_num [max_eq_right h1]

/-- Raising the breach-count-one rank to the 39th power clears the
fractional exponent. -/
theorem zipfRank_one_pow39 : zipfRank 1 ^ (39 : ℕ) = (1000000 : ℝ) ^ (50 : ℕ) := by
  rw [zipfRank_one_eq, ← Real.rpow_natCast ((1000000 : ℝ) ^ ((50 : ℝ) / 39)) 39,
    ← Real.rpow_mul (by norm_num : (0 : ℝ) ≤ 1000000),
    show (50 : ℝ) / 39 * ((39 : ℕ) : ℝ) = ((50 : ℕ) : ℝ) by norm_num,
    Real.rpow_natCast]

/-- Lower bound on the breach-count-one rank: at least 47 million. -/
theorem zipfRank_one_ge : (4.7e7 : ℝ) ≤ zipfRank 1 := by
  have h0 : (0 : ℝ) ≤ zipfRank 1 := zero_le_one.trans (one_le_zipfRank 1)
  have h39 : (4.7e7 : ℝ) ^ (39 : ℕ) ≤ zipfRank 1 ^ (39 : ℕ) := by
    rw [zipfRank_one_pow39]
    norm_num
  exact le_of_pow_le_pow_left₀ (by norm_num) h0 h39

/-- Upper bound on the breach-count-one rank: at most 50 million. -/
theorem zipfRank_one_le : zipfRank 1 ≤ (5e7 : ℝ) := by
  have h39 : zipfRank 1 ^ (39 : ℕ) ≤ (5e7 : ℝ) ^ (39 : ℕ) := by
    rw [zipfRank_one_pow39]
    norm_num
  exact le_of_pow_le_pow_left₀ (by norm_num) (by norm_num) h39

/-- Lower bound on the breach-count-one penalty entropy: at least 25.4
bits. -/
theorem zipf_pe_one_ge : (25.4 : ℝ) ≤ Real.logb 2 (zipfRank 1) := by
  have hpos : (0 : ℝ) < zipfRank 1 := zero_lt_one.trans_le (one_le_zipfRank 1)
  rw [Real.le_logb_iff_rpow_le one_lt_two hpos]
  have h5 : ((2 : ℝ) ^ (25.4 : ℝ)) ^ (5 : ℕ) ≤ (4.7e7 : ℝ) ^ (5 : ℕ) := by
    rw [← Real.rpow_natCast ((2 : ℝ) ^ (25.4 : ℝ)) 5,
      ← Real.rpow_mul (by norm_num : (0 : ℝ) ≤ 2),
      show (25.4 : ℝ) * ((5 : ℕ) : ℝ) = ((127 : ℕ) : ℝ) by norm_num,
      Real.rpow_natCast]
    norm_num
  exact (le_of_pow_le_pow_left₀ (by norm_num) (by norm_num) h5).trans zipfRank_one_ge

/-- Upper bound on the breach-count-one penalty entropy: at most 25.6
bits. -/
theorem zipf_pe_one_le : Real.logb 2 (zipfRank 1) ≤ 25.6 := by
  have hpos : (0 : ℝ) < zipfRank 1 := zero_lt_one.trans_le (one_le_zipfRank 1)
  rw [Real.logb_le_iff_le_rpow one_lt_two hpos]
  refine zipfRank_one_le.trans ?_
  have h5 : (5e7 : ℝ) ^ (5 : ℕ) ≤ ((2 : ℝ) ^ (25.6 : ℝ)) ^ (5 : ℕ) := by
    rw [← Real.rpow_natCast ((2 : ℝ) ^ (25.6 : ℝ)) 5,
      ← Real.rpow_mul (by norm_num : (0 : ℝ) ≤ 2),
      show (25.6 : ℝ) * ((5 : ℕ) : ℝ) = ((128 : ℕ) : ℝ) by norm_num,
      Real.rpow_natCast]
    norm_num
  exact le_of_pow_le_pow_left₀ (by norm_num) (Real.rpow_nonneg (by norm_num) _) h5

/-- C9: at breach count one the Zipf rank lies between 47 and 50 million
(about 48 million), the corresponding penalty entropy lies between 25.4
and 25.6 bits (about 25.5), and for any original entropy of at least 25.5
bits the returned final entropy is exactly the 25-bit cap, flagged as
penalized. -/
theorem claim9_single_breach_hits_cap (e : ℝ) (he : 25.5 ≤ e) :
    ((4.7e7 : ℝ) ≤ zipfRank 1 ∧ zipfRank 1 ≤ 5e7) ∧
    ((25.4 : ℝ) ≤ Real.logb 2 (zipfRank 1) ∧ Real.logb 2 (zipfRank 1) ≤ 25.6) ∧
    (calculatePenalizedEntropy e 1).entropy = 25 ∧
    (calculatePenalizedEntropy e 1).isPenalized = true := by
  refine ⟨⟨zipfRank_one_ge, zipfRank_one_le⟩, ⟨zipf_pe_one_ge, zipf_pe_one_le⟩, ?_, ?_⟩
  · rw [calculatePenalizedEntropy_pos e 1 one_ne_zero]
    have h1 : (25 : ℝ) ≤ Real.logb 2 (zipfRank 1) := le_trans (by norm_num) zipf_pe_one_ge
    rw [show min (Real.logb 2 (zipfRank 1)) 25 = 25 from min_eq_right h1,
      min_eq_right (le_trans (by norm_num : (25 : ℝ) ≤ 25.5) he)]
  · rw [calculatePenalizedEntropy_pos e 1 one_ne_zero]
    rfl

/-- Witness for C9 at a concrete input. -/
theorem claim9_witness :
    (25.5 : ℝ) ≤ 26 ∧
    (((4.7e7 : ℝ) ≤ zipfRank 1 ∧ zipfRank 1 ≤ 5e7) ∧
     ((25.4 : ℝ) ≤ Real.logb 2 (zipfRank 1) ∧ Real.logb 2 (zipfRank 1) ≤ 25.6) ∧
     (calculatePenalizedEntropy 26 1).entropy = 25 ∧
     (calculatePenalizedEntropy 26 1).isPenalized = true) :=
  ⟨by norm_num, claim9_single_breach_hits_cap 26 (by norm_num)⟩

end PasswordEntropy
